import Mathlib

/-!
Shallow embedding of the caching comic-retrieval service
(`src/services/xkcdService.js`).

Modelling conventions:
* JS numbers that may be non-integral (the public `id`, `page`, `limit`
  arguments) are `ℚ`; `Number.isInteger x` is `x.den = 1`.
* `Date.now()` is a parameter `now : ℤ` (milliseconds), constant within one
  operation.
* `fetch` is an oracle: `FetchOutcome` is either a resolved response
  (status, statusText, parsed JSON body) or a rejection with a message.
* JS exceptions carry only their message string, so a failing operation is
  `Except.error msg`; the service compares messages with `===`, which the
  embedding mirrors with string equality.
* The service object's mutable fields (`cache`, `_nextCachedPenalty`) are a
  `ServiceState` threaded through every operation; a ghost counter
  `fetchCount` records how many upstream fetches were performed.
* The artificial `setTimeout` delays have no data effect and are dropped.
-/

namespace Xkcd

/-- Raw upstream JSON body (`{num, title, img, alt, transcript, ...}`);
`transcript` may be absent. -/
structure RawComic where
  num : ℤ
  title : String
  img : String
  alt : String
  transcript : Option String
  year : ℤ
  month : ℤ
  day : ℤ
  safe_title : String
  deriving DecidableEq

/-- Processed comic, the shape produced by `processComic`. -/
structure Comic where
  id : ℤ
  title : String
  img : String
  alt : String
  transcript : String
  year : ℤ
  month : ℤ
  day : ℤ
  safe_title : String
  deriving DecidableEq

/-- `processComic(comic)`: field renaming plus `transcript: comic.transcript || ''`. -/
def processComic (c : RawComic) : Comic :=
  { id := c.num, title := c.title, img := c.img, alt := c.alt,
    transcript := c.transcript.getD "", year := c.year, month := c.month,
    day := c.day, safe_title := c.safe_title }

/-- A resolved `fetch` response: HTTP status, status text and the JSON body
that `response.json()` would yield. -/
structure JsResponse where
  status : ℤ
  statusText : String
  body : RawComic
  deriving DecidableEq

/-- `response.ok`: status in the range 200-299. -/
def respOk (r : JsResponse) : Bool :=
  200 ≤ r.status && r.status ≤ 299

/-- The message `HTTP ${response?.status || 500}: ${response?.statusText ||
'Internal Server Error'}` (JS `||` takes the fallback on falsy values:
status `0`, empty status text). -/
def httpErrMsg (r : JsResponse) : String :=
  "HTTP " ++ toString (if r.status = 0 then (500 : ℤ) else r.status) ++ ": " ++
    (if r.statusText = "" then "Internal Server Error" else r.statusText)

/-- Outcome of one `fetch` call: a resolved response, or the promise
rejecting with an error message. -/
inductive FetchOutcome where
  | resp (r : JsResponse)
  | reject (msg : String)
  deriving DecidableEq

/-- One cache slot: `{ data, timestamp }` as stored by `this.cache.set`. -/
structure CacheEntry where
  data : Comic
  timestamp : ℤ
  deriving DecidableEq

/-- `Map.prototype.get` on the association-list model of `this.cache`. -/
def cacheGet : List (String × CacheEntry) → String → Option CacheEntry
  | [], _ => none
  | (k, v) :: rest, key => if k = key then some v else cacheGet rest key

/-- `Map.prototype.set`: overwrite an existing key in place, else append. -/
def cacheSet : List (String × CacheEntry) → String → CacheEntry →
    List (String × CacheEntry)
  | [], key, v => [(key, v)]
  | (k, w) :: rest, key, v =>
      if k = key then (key, v) :: rest else (k, w) :: cacheSet rest key v

/-- Mutable state of the service object.  `fetchCount` is a ghost counter of
upstream fetches (it mirrors no JS field and influences nothing). -/
structure ServiceState where
  cache : List (String × CacheEntry)
  nextCachedPenalty : Bool
  fetchCount : ℕ
  deriving DecidableEq

/-- `this.cacheTimeout = 5 * 60 * 1000` (milliseconds). -/
def cacheTimeout : ℤ := 5 * 60 * 1000

/-- Cold path of `getLatest`: fetch, classify failures, cache on success. -/
def getLatestCold (s : ServiceState) (now : ℤ) (upL : FetchOutcome) :
    Except String Comic × ServiceState :=
  let s1 : ServiceState := { s with fetchCount := s.fetchCount + 1 }
  match upL with
  | .reject m => (.error ("Failed to fetch latest comic: " ++ m), s1)
  | .resp r =>
      if respOk r then
        let pc := processComic r.body
        (.ok pc,
          { s1 with cache := cacheSet s1.cache "latest" ⟨pc, now⟩,
                    nextCachedPenalty := true })
      else
        (.error ("Failed to fetch latest comic: " ++ httpErrMsg r), s1)

/-- `getLatest()`: serve the cached entry while fresh (consuming the
one-time penalty flag, a pure-latency effect), else take the cold path. -/
def getLatest (s : ServiceState) (now : ℤ) (upL : FetchOutcome) :
    Except String Comic × ServiceState :=
  match cacheGet s.cache "latest" with
  | some cached =>
      if now - cached.timestamp < cacheTimeout then
        (.ok cached.data, { s with nextCachedPenalty := false })
      else getLatestCold s now upL
  | none => getLatestCold s now upL

/-- The cache key `comic-${id}`. -/
def comicKey (i : ℤ) : String := "comic-" ++ toString i

/-- Cold path of `getById` for an already validated integer id.  Note the
`throw new Error('Comic not found')` sits inside the same `try` whose catch
wraps every message, so the surfaced message is the wrapped one. -/
def getByIdCold (s : ServiceState) (now : ℤ) (up : ℤ → FetchOutcome) (i : ℤ) :
    Except String Comic × ServiceState :=
  let s1 : ServiceState := { s with fetchCount := s.fetchCount + 1 }
  match up i with
  | .reject m => (.error ("Failed to fetch comic by ID: " ++ m), s1)
  | .resp r =>
      if r.status = 404 then
        (.error "Failed to fetch comic by ID: Comic not found", s1)
      else if respOk r then
        let pc := processComic r.body
        (.ok pc, { s1 with cache := cacheSet s1.cache (comicKey i) ⟨pc, now⟩ })
      else
        (.error ("Failed to fetch comic by ID: " ++ httpErrMsg r), s1)

/-- `getById(id)`: validate (`Number.isInteger(id) && id > 0`), then serve a
fresh cache hit, else the cold path. -/
def getById (s : ServiceState) (now : ℤ) (up : ℤ → FetchOutcome) (id : ℚ) :
    Except String Comic × ServiceState :=
  if ¬ id.den = 1 ∨ id ≤ 0 then (.error "Invalid comic ID", s)
  else
    match cacheGet s.cache (comicKey id.num) with
    | some cached =>
        if now - cached.timestamp < cacheTimeout then (.ok cached.data, s)
        else getByIdCold s now up id.num
    | none => getByIdCold s now up id.num

/-- The loop body of `getRandom`: `for (let i = 0; i < 5; i++)`, taking the
random id of attempt `i` from the oracle `rnd`.  On success return the comic;
on a failure whose message is exactly `'Comic not found'` retry; on any other
failure re-throw.  When the fuel (remaining iterations) runs out, fall back
to the latest comic. -/
def getRandomLoop (now : ℤ) (up : ℤ → FetchOutcome) (rnd : ℕ → ℤ)
    (latest : Comic) : ServiceState → ℕ → ℕ → Except String Comic × ServiceState
  | s, _, 0 => (.ok latest, s)
  | s, i, fuel + 1 =>
      match getById s now up ((rnd i : ℤ) : ℚ) with
      | (.ok c, s1) => (.ok c, s1)
      | (.error e, s1) =>
          if e = "Comic not found" then getRandomLoop now up rnd latest s1 (i + 1) fuel
          else (.error e, s1)

/-- `getRandom()`: learn `maxId` from `getLatest`, try up to 5 random ids,
fall back to the latest comic; the outer catch wraps any escaping message as
`Failed to fetch random comic: <cause>`.  `rnd i` stands for the value
`Math.floor(Math.random() * maxId) + 1` drawn at attempt `i`. -/
def getRandom (s : ServiceState) (now : ℤ) (upL : FetchOutcome)
    (up : ℤ → FetchOutcome) (rnd : ℕ → ℤ) : Except String Comic × ServiceState :=
  match getLatest s now upL with
  | (.error e, s1) => (.error ("Failed to fetch random comic: " ++ e), s1)
  | (.ok latest, s1) =>
      match getRandomLoop now up rnd latest s1 0 5 with
      | (.ok c, s2) => (.ok c, s2)
      | (.error e, s2) => (.error ("Failed to fetch random comic: " ++ e), s2)

/-- Does the list of characters `hay` start with `needle`? -/
def leadsWith : List Char → List Char → Bool
  | _, [] => true
  | [], _ :: _ => false
  | a :: as, b :: bs => a == b && leadsWith as bs

/-- Does `needle` occur contiguously inside `hay`? -/
def containsSeq : List Char → List Char → Bool
  | [], needle => needle.isEmpty
  | a :: as, needle => leadsWith (a :: as) needle || containsSeq as needle

/-- `String.prototype.includes`. -/
def jsIncludes (hay needle : String) : Bool := containsSeq hay.data needle.data

/-- `String.prototype.toLowerCase` (per character). -/
def jsToLower (s : String) : String := ⟨s.data.map Char.toLower⟩

/-- `String.prototype.trim`: strip whitespace from both ends. -/
def jsTrim (s : String) : String :=
  ⟨((s.data.dropWhile Char.isWhitespace).reverse.dropWhile Char.isWhitespace).reverse⟩

/-- The descending id window scanned by `search`:
`for (let id = maxId; id >= Math.max(1, maxId - 30); id--)`. -/
def scanIds (maxId : ℤ) : List ℤ :=
  (List.range (maxId - max 1 (maxId - 30) + 1).toNat).map (fun k : ℕ => maxId - (k : ℤ))

/-- The scan loop of `search` over a list of ids: fetch each id via
`getById`; on success add the comic when `(title + ' ' + transcript)`
lower-cased contains the query; the catch block swallows every error
(its `continue` guard is reached only for the exact message
`'Comic not found'`, but the catch falls through to the next iteration in
every case). -/
def searchScan (now : ℤ) (up : ℤ → FetchOutcome) (q : String) :
    ServiceState → List ℤ → List Comic × ServiceState
  | s, [] => ([], s)
  | s, i :: rest =>
      match getById s now up ((i : ℤ) : ℚ) with
      | (.ok c, s1) =>
          let acc := searchScan now up q s1 rest
          (if jsIncludes (jsToLower (c.title ++ " " ++ c.transcript)) q
           then c :: acc.1 else acc.1, acc.2)
      | (.error _, s1) => searchScan now up q s1 rest

/-- `page` sanitization: `Number.isInteger(page) && page > 0 ? page : 1`. -/
def safePage (page : ℚ) : ℤ :=
  if page.den = 1 ∧ 0 < page.num then page.num else 1

/-- `limit` sanitization:
`Number.isInteger(limit) && limit > 0 ? Math.min(limit, 50) : 10`. -/
def safeLimit (limit : ℚ) : ℤ :=
  if limit.den = 1 ∧ 0 < limit.num then min limit.num 50 else 10

/-- `Math.ceil(a / b)` for integers with `a ≥ 0`, `b ≥ 1`. -/
def ceilDivInt (a b : ℤ) : ℤ := (a + b - 1) / b

/-- The record returned by a successful `search`. -/
structure Pagination where
  page : ℤ
  limit : ℤ
  pages : ℤ
  offset : ℤ
  deriving DecidableEq

/-- `search`'s result object. -/
structure SearchResult where
  query : String
  results : List Comic
  total : ℕ
  pagination : Pagination
  deriving DecidableEq

/-- `search(query, page = 1, limit = 10)`: validate the trimmed query
length, learn `maxId` from `getLatest` (whose failure propagates unwrapped),
scan the recent window, then slice and paginate. -/
def search (s : ServiceState) (now : ℤ) (upL : FetchOutcome)
    (up : ℤ → FetchOutcome) (query : String) (page limit : ℚ) :
    Except String SearchResult × ServiceState :=
  if (jsTrim query).length < 1 ∨ 100 < (jsTrim query).length then
    (.error "Invalid search query", s)
  else
    let q := jsToLower (jsTrim query)
    match getLatest s now upL with
    | (.error e, s1) => (.error e, s1)
    | (.ok latest, s1) =>
        let scanned := searchScan now up q s1 (scanIds latest.id)
        let sp := safePage page
        let sl := safeLimit limit
        let offset := (sp - 1) * sl
        let pages := max 1 (ceilDivInt scanned.1.length sl)
        (.ok { query := jsTrim query,
               results := (scanned.1.drop offset.toNat).take sl.toNat,
               total := scanned.1.length,
               pagination := ⟨sp, sl, pages, offset⟩ }, scanned.2)

/-- Is the cache slot `k` present and fresh at time `now`?  (The guard
`cached && now - cached.timestamp < cacheTimeout`.) -/
def cacheFreshAt (s : ServiceState) (k : String) (now : ℤ) : Bool :=
  match cacheGet s.cache k with
  | some e => decide (now - e.timestamp < cacheTimeout)
  | none => false

/-- Decidable equality for operation results, for concrete evaluation. -/
instance {e a : Type} [DecidableEq e] [DecidableEq a] : DecidableEq (Except e a) :=
  fun x y =>
    match x, y with
    | .ok u, .ok v =>
        if h : u = v then .isTrue (by rw [h])
        else .isFalse (fun hh => by cases hh; exact h rfl)
    | .error u, .error v =>
        if h : u = v then .isTrue (by rw [h])
        else .isFalse (fun hh => by cases hh; exact h rfl)
    | .ok _, .error _ => .isFalse (fun hh => Except.noConfusion hh)
    | .error _, .ok _ => .isFalse (fun hh => Except.noConfusion hh)

/-- For each id in `ids` that has a cache entry, the cached comic carries
that id.  (Holds for any state produced by consistent upstreams; hypothesis
of the ordering statement.) -/
def cacheConsistentOn (c : List (String × CacheEntry)) (ids : List ℤ) : Bool :=
  ids.all fun i =>
    match cacheGet c (comicKey i) with
    | some e => e.data.id == i
    | none => true

/-- For each id in `ids`, a successful upstream body for that id carries it
as `num`. -/
def upConsistentOn (up : ℤ → FetchOutcome) (ids : List ℤ) : Bool :=
  ids.all fun i =>
    match up i with
    | .resp r => !respOk r || r.body.num == i
    | .reject _ => true

/-! ### Concrete fixtures used by witnesses and counterexamples -/

/-- Fresh service: empty cache, penalty unarmed, no fetches yet. -/
def emptyState : ServiceState := ⟨[], false, 0⟩

/-- A sample upstream body with the given comic number. -/
def sampleRaw (n : ℤ) : RawComic :=
  ⟨n, "Alpha a", "https://x/a.png", "alt", some "beta", 2009, 7, 24, "Alpha a"⟩

/-- Upstream that answers every by-id request with HTTP 200. -/
def upOkAll : ℤ → FetchOutcome := fun i => .resp ⟨200, "OK", sampleRaw i⟩

/-- Upstream that answers every by-id request with HTTP 404. -/
def upNotFoundAll : ℤ → FetchOutcome := fun _ => .resp ⟨404, "Not Found", sampleRaw 0⟩

/-- Upstream answer for `fetchLatest`: comic 2. -/
def upLatest2 : FetchOutcome := .resp ⟨200, "OK", sampleRaw 2⟩

/-- Upstream answer for `fetchLatest`: comic 3. -/
def upLatest3 : FetchOutcome := .resp ⟨200, "OK", sampleRaw 3⟩

/-- Upstream that fails id 1 with HTTP 500 and serves every other id. -/
def upHttp500At1 : ℤ → FetchOutcome :=
  fun i => if i = 1 then .resp ⟨500, "Server Error", sampleRaw 1⟩
           else .resp ⟨200, "OK", sampleRaw i⟩

/-- A state whose `latest` entry was stored at time 0. -/
def staleLatestState : ServiceState :=
  ⟨[("latest", ⟨processComic (sampleRaw 2), 0⟩)], false, 0⟩

/-! ### Helper lemmas -/

theorem cacheGet_cacheSet_self (c : List (String × CacheEntry)) (k : String)
    (v : CacheEntry) : cacheGet (cacheSet c k v) k = some v := by
  induction c with
  | nil => simp [cacheSet, cacheGet]
  | cons kv rest ih =>
      obtain ⟨k', v'⟩ := kv
      by_cases h : k' = k
      · simp [cacheSet, h, cacheGet]
      · simp [cacheSet, h, cacheGet, ih]

theorem cacheGet_cacheSet_ne (c : List (String × CacheEntry)) (k k' : String)
    (v : CacheEntry) (h : k' ≠ k) :
    cacheGet (cacheSet c k v) k' = cacheGet c k' := by
  induction c with
  | nil => simp [cacheSet, cacheGet, Ne.symm h]
  | cons kv rest ih =>
      obtain ⟨k0, v0⟩ := kv
      by_cases h0 : k0 = k
      · subst h0
        simp [cacheSet, cacheGet, Ne.symm h]
      · simp [cacheSet, h0, cacheGet, ih]

/-- Shape of a successful `getByIdCold`: the upstream responded 2xx and the
result comic was stored under `comic-{i}` with the current timestamp. -/
theorem getByIdCold_ok (s s1 : ServiceState) (now : ℤ) (up : ℤ → FetchOutcome)
    (i : ℤ) (c : Comic) (h : getByIdCold s now up i = (.ok c, s1)) :
    s1 = { s with fetchCount := s.fetchCount + 1,
                  cache := cacheSet s.cache (comicKey i) ⟨c, now⟩ } := by
  unfold getByIdCold at h
  split at h
  · -- upstream rejected
    injection h with h1 h2
    exact Except.noConfusion h1
  · -- upstream resolved
    split at h
    · injection h with h1 h2
      exact Except.noConfusion h1
    · split at h
      · injection h with h1 h2
        injection h1 with h1
        subst h1
        exact h2.symm
      · injection h with h1 h2
        exact Except.noConfusion h1

/-- A failing `getByIdCold` only bumps the ghost fetch counter: the cache is
untouched. -/
theorem getByIdCold_error (s s1 : ServiceState) (now : ℤ) (up : ℤ → FetchOutcome)
    (i : ℤ) (e : String) (h : getByIdCold s now up i = (.error e, s1)) :
    s1 = { s with fetchCount := s.fetchCount + 1 } := by
  unfold getByIdCold at h
  split at h
  · injection h with h1 h2
    exact h2.symm
  · split at h
    · injection h with h1 h2
      exact h2.symm
    · split at h
      · injection h with h1 h2
        exact Except.noConfusion h1
      · injection h with h1 h2
        exact h2.symm

/-- A failing `getLatestCold` only bumps the ghost fetch counter. -/
theorem getLatestCold_error (s s1 : ServiceState) (now : ℤ) (upL : FetchOutcome)
    (e : String) (h : getLatestCold s now upL = (.error e, s1)) :
    s1 = { s with fetchCount := s.fetchCount + 1 } := by
  unfold getLatestCold at h
  split at h
  · injection h with h1 h2
    exact h2.symm
  · split at h
    · injection h with h1 h2
      exact Except.noConfusion h1
    · injection h with h1 h2
      exact h2.symm

/-- Shape of a successful `getLatestCold`. -/
theorem getLatestCold_ok (s s1 : ServiceState) (now : ℤ) (upL : FetchOutcome)
    (c : Comic) (h : getLatestCold s now upL = (.ok c, s1)) :
    s1 = { s with fetchCount := s.fetchCount + 1,
                  cache := cacheSet s.cache "latest" ⟨c, now⟩,
                  nextCachedPenalty := true } := by
  unfold getLatestCold at h
  split at h
  · injection h with h1 h2
    exact Except.noConfusion h1
  · split at h
    · injection h with h1 h2
      injection h1 with h1
      subst h1
      exact h2.symm
    · injection h with h1 h2
      exact Except.noConfusion h1

/-- A failing `getLatest` leaves the cache untouched. -/
theorem getLatest_error_cache (s s1 : ServiceState) (now : ℤ) (upL : FetchOutcome)
    (e : String) (h : getLatest s now upL = (.error e, s1)) : s1.cache = s.cache := by
  unfold getLatest at h
  split at h
  · split at h
    · injection h with h1 h2
      exact Except.noConfusion h1
    · rw [getLatestCold_error s s1 now upL e h]
  · rw [getLatestCold_error s s1 now upL e h]

/-- A failing `getById` leaves the cache untouched. -/
theorem getById_error_cache (s s1 : ServiceState) (now : ℤ) (up : ℤ → FetchOutcome)
    (x : ℚ) (e : String) (h : getById s now up x = (.error e, s1)) :
    s1.cache = s.cache := by
  unfold getById at h
  split at h
  · injection h with h1 h2
    rw [← h2]
  · split at h
    · split at h
      · injection h with h1 h2
        exact Except.noConfusion h1
      · rw [getByIdCold_error s s1 now up x.num e h]
    · rw [getByIdCold_error s s1 now up x.num e h]

/-- Every error escaping `getLatest` is the wrapped fetch-failure message. -/
theorem getLatest_error_msg (s s1 : ServiceState) (now : ℤ) (upL : FetchOutcome)
    (e : String) (h : getLatest s now upL = (.error e, s1)) :
    ∃ m, e = "Failed to fetch latest comic: " ++ m := by
  have cold : ∀ s' : ServiceState, getLatestCold s' now upL = (.error e, s1) →
      ∃ m, e = "Failed to fetch latest comic: " ++ m := by
    intro s' h'
    unfold getLatestCold at h'
    split at h'
    · injection h' with h1 h2
      injection h1 with h1
      exact ⟨_, h1.symm⟩
    · split at h'
      · injection h' with h1 h2
        exact Except.noConfusion h1
      · injection h' with h1 h2
        injection h1 with h1
        exact ⟨_, h1.symm⟩
  unfold getLatest at h
  split at h
  · split at h
    · injection h with h1 h2
      exact Except.noConfusion h1
    · exact cold s h
  · exact cold s h

/-- Reading the freshness flag back. -/
theorem cacheFreshAt_spec (s : ServiceState) (k : String) (now : ℤ) (e : CacheEntry)
    (he : cacheGet s.cache k = some e) (h : cacheFreshAt s k now = true) :
    now - e.timestamp < cacheTimeout := by
  unfold cacheFreshAt at h
  rw [he] at h
  exact of_decide_eq_true h

/-- A fresh cache hit in `getById` returns the stored comic, state unchanged. -/
theorem getById_hit (s : ServiceState) (now : ℤ) (up : ℤ → FetchOutcome) (x : ℚ)
    (hv : ¬(¬ x.den = 1 ∨ x ≤ 0)) (e : CacheEntry)
    (he : cacheGet s.cache (comicKey x.num) = some e)
    (hfresh : now - e.timestamp < cacheTimeout) :
    getById s now up x = (.ok e.data, s) := by
  unfold getById
  rw [if_neg hv]
  simp only [he]
  rw [if_pos hfresh]

/-! ### Claim theorems -/

/-- Claim C5: for every argument `id` that is not a positive integer
(`id ≤ 0` or non-integer), `getById(id)` fails with `InvalidIdError`
("Invalid comic ID") before any upstream call and without touching the
cache: the returned state is exactly the input state, so neither the cache
nor the ghost fetch counter changed and the upstream oracle was never
consulted. -/
theorem getById_invalid_id (s : ServiceState) (now : ℤ) (up : ℤ → FetchOutcome)
    (x : ℚ) (h : ¬ x.den = 1 ∨ x ≤ 0) :
    getById s now up x = (.error "Invalid comic ID", s) := by
  unfold getById
  rw [if_pos h]

/-- Witness for C5 at the concrete invalid id 0. -/
theorem getById_invalid_id_witness :
    (¬ (0 : ℚ).den = 1 ∨ (0 : ℚ) ≤ 0)
    ∧ getById emptyState 0 upOkAll 0 = (.error "Invalid comic ID", emptyState) :=
  ⟨Or.inr (by decide), getById_invalid_id emptyState 0 upOkAll 0 (Or.inr (by decide))⟩

/-- Claim C9: the cache is mutated only on a successful upstream fetch —
whenever `getLatest()` or `getById(id)` fails (validation failure, upstream
error, or not-found) the cache contents are exactly as they were before the
call. -/
theorem cache_unchanged_on_error :
    (∀ (s : ServiceState) (now : ℤ) (upL : FetchOutcome) (e : String)
        (s1 : ServiceState),
        getLatest s now upL = (.error e, s1) → s1.cache = s.cache)
    ∧ (∀ (s : ServiceState) (now : ℤ) (up : ℤ → FetchOutcome) (x : ℚ) (e : String)
        (s1 : ServiceState),
        getById s now up x = (.error e, s1) → s1.cache = s.cache) :=
  ⟨fun s now upL e s1 h => getLatest_error_cache s s1 now upL e h,
   fun s now up x e s1 h => getById_error_cache s s1 now up x e h⟩

/-- Witness for C9: a rejected latest fetch and a 404 by-id fetch both leave
the (empty) cache unchanged. -/
theorem cache_unchanged_on_error_witness :
    (getLatest emptyState 0 (.reject "boom")).2.cache = emptyState.cache
    ∧ (getById emptyState 0 upNotFoundAll 7).2.cache = emptyState.cache := by
  constructor
  · exact cache_unchanged_on_error.1 emptyState 0 (.reject "boom")
      "Failed to fetch latest comic: boom" (getLatest emptyState 0 (.reject "boom")).2
      (by decide)
  · exact cache_unchanged_on_error.2 emptyState 0 upNotFoundAll 7
      "Failed to fetch comic by ID: Comic not found"
      (getById emptyState 0 upNotFoundAll 7).2 (by decide)

/-- Claim C2 (code bug): for a nonexistent id (upstream 404) the service is
documented to fail with `NotFoundError("Comic not found")`, but the
`throw new Error('Comic not found')` sits inside the same `try` whose catch
re-wraps every message, so `getById` actually fails with the message
`"Failed to fetch comic by ID: Comic not found"` — never with
`"Comic not found"` (which the error handler and the in-service retry checks
compare against verbatim).  Repeated calls for the same nonexistent id do
fail with the identical (wrapped) error. -/
theorem getById_notfound_wrapped :
    (getById emptyState 0 upNotFoundAll 7).1
        = .error "Failed to fetch comic by ID: Comic not found"
    ∧ (getById (getById emptyState 0 upNotFoundAll 7).2 1 upNotFoundAll 7).1
        = .error "Failed to fetch comic by ID: Comic not found"
    ∧ (getById emptyState 0 upNotFoundAll 7).1 ≠ .error "Comic not found" := by
  refine ⟨by decide, by decide, by decide⟩

/-- Claim C3 (code bug): `getRandom` is documented (and commented in the
source) to retry up to 5 random ids on not-found and then fall back to
the latest comic, but because `getById` surfaces the wrapped message
`"Failed to fetch comic by ID: Comic not found"`, the retry guard
`e.message === 'Comic not found'` never matches: the very first missing
random id aborts `getRandom` with
`"Failed to fetch random comic: Failed to fetch comic by ID: Comic not
found"` instead of retrying or falling back. -/
theorem getRandom_aborts_on_first_missing :
    getRandom emptyState 0 upLatest2 upNotFoundAll (fun _ => 1)
      = (.error
           "Failed to fetch random comic: Failed to fetch comic by ID: Comic not found",
         ⟨[("latest", ⟨processComic (sampleRaw 2), 0⟩)], true, 2⟩) := by
  decide

/-- Claim C1: if `getById(id)` succeeds and is called again with the same id
while the cached `comic-{id}` entry is still within the 5-minute TTL window,
the second call returns a value identical to the first call's result and
performs no additional upstream fetch: the state (hence the ghost fetch
counter) is unchanged, and the second call's upstream oracle `up2` is
arbitrary — it is never consulted. -/
theorem getById_ttl_second_call (s s1 : ServiceState) (now1 now2 : ℤ)
    (up1 up2 : ℤ → FetchOutcome) (x : ℚ) (c : Comic)
    (h1 : getById s now1 up1 x = (.ok c, s1))
    (h2 : cacheFreshAt s1 (comicKey x.num) now2 = true) :
    getById s1 now2 up2 x = (.ok c, s1) := by
  by_cases hv : ¬ x.den = 1 ∨ x ≤ 0
  · unfold getById at h1
    rw [if_pos hv] at h1
    injection h1 with ha hb
    exact Except.noConfusion ha
  · have hcase : ∃ e : CacheEntry,
        cacheGet s1.cache (comicKey x.num) = some e ∧ e.data = c := by
      unfold getById at h1
      rw [if_neg hv] at h1
      rcases hcg : cacheGet s.cache (comicKey x.num) with _ | cached
      · simp only [hcg] at h1
        have hs1 := getByIdCold_ok s s1 now1 up1 x.num c h1
        subst hs1
        exact ⟨⟨c, now1⟩, cacheGet_cacheSet_self s.cache (comicKey x.num) ⟨c, now1⟩, rfl⟩
      · simp only [hcg] at h1
        split at h1
        · injection h1 with ha hb
          injection ha with ha
          exact ⟨cached, by rw [← hb]; exact hcg, ha⟩
        · have hs1 := getByIdCold_ok s s1 now1 up1 x.num c h1
          subst hs1
          exact ⟨⟨c, now1⟩, cacheGet_cacheSet_self s.cache (comicKey x.num) ⟨c, now1⟩, rfl⟩
    obtain ⟨e, he, hdata⟩ := hcase
    have hfresh := cacheFreshAt_spec s1 (comicKey x.num) now2 e he h2
    rw [getById_hit s1 now2 up2 x hv e he hfresh, hdata]

/-- Witness for C1: comic 3 is fetched cold at time 0; a second call at time
1 (within TTL) returns the same comic from the cache with the state
unchanged, even against an upstream that would now answer 404. -/
theorem getById_ttl_second_call_witness :
    getById ⟨[("comic-3", ⟨processComic (sampleRaw 3), 0⟩)], false, 1⟩ 1 upNotFoundAll 3
      = (.ok (processComic (sampleRaw 3)),
         ⟨[("comic-3", ⟨processComic (sampleRaw 3), 0⟩)], false, 1⟩) :=
  getById_ttl_second_call emptyState _ 0 1 upOkAll upNotFoundAll 3 _
    (by decide) (by decide)

/-- Claim C8: once the TTL has elapsed since the `latest` entry was stored
(`cacheTimeout ≤ now - storedAt`, which forces `storedAt < now`), a repeated
`getLatest()` takes the cold path: it performs a fresh upstream fetch (the
ghost fetch counter increments unconditionally), and on upstream success it
returns the freshly fetched comic and overwrites the `latest` entry with the
new `storedAt` timestamp `now`, rather than returning the stale value. -/
theorem getLatest_stale_refetch (s : ServiceState) (now : ℤ) (upL : FetchOutcome)
    (e : CacheEntry) (he : cacheGet s.cache "latest" = some e)
    (hstale : cacheTimeout ≤ now - e.timestamp) :
    e.timestamp < now
    ∧ (getLatest s now upL).2.fetchCount = s.fetchCount + 1
    ∧ ∀ r : JsResponse, upL = .resp r → respOk r = true →
        getLatest s now upL =
          (.ok (processComic r.body),
           { s with cache := cacheSet s.cache "latest" ⟨processComic r.body, now⟩,
                    nextCachedPenalty := true, fetchCount := s.fetchCount + 1 }) := by
  have hcold : getLatest s now upL = getLatestCold s now upL := by
    unfold getLatest
    simp only [he]
    rw [if_neg (not_lt.mpr hstale)]
  refine ⟨?_, ?_, ?_⟩
  · unfold cacheTimeout at hstale
    omega
  · rw [hcold]
    unfold getLatestCold
    rcases upL with r | m
    · by_cases hok : respOk r
      · simp [hok]
      · simp [hok]
    · simp
  · intro r hr hok
    subst hr
    rw [hcold]
    unfold getLatestCold
    simp [hok]

/-- Witness for C8: the `latest` entry stored at time 0 is stale at time
300000; `getLatest` re-fetches (counter 0 → 1) and overwrites the entry with
the fresh comic 3 stored at 300000. -/
theorem getLatest_stale_refetch_witness :
    ((0 : ℤ) < 300000)
    ∧ (getLatest staleLatestState 300000 upLatest3).2.fetchCount
        = staleLatestState.fetchCount + 1
    ∧ getLatest staleLatestState 300000 upLatest3
        = (.ok (processComic (sampleRaw 3)),
           ⟨[("latest", ⟨processComic (sampleRaw 3), 300000⟩)], true, 1⟩) := by
  obtain ⟨h1, h2, h3⟩ := getLatest_stale_refetch staleLatestState 300000 upLatest3
      ⟨processComic (sampleRaw 2), 0⟩ (by decide) (by decide)
  refine ⟨h1, h2, ?_⟩
  have h4 := h3 ⟨200, "OK", sampleRaw 3⟩ rfl (by decide)
  rw [h4]
  decide

/-- No wrapped `getLatest` failure message collides with the validation
message of `search`. -/
theorem wrapped_latest_msg_ne_invalid_query (m : String) :
    "Failed to fetch latest comic: " ++ m ≠ "Invalid search query" := by
  intro h
  have hlen := congrArg String.length h
  rw [String.length_append] at hlen
  have h30 : ("Failed to fetch latest comic: " : String).length = 30 := by decide
  have h20 : ("Invalid search query" : String).length = 20 := by decide
  omega

/-- Claim C6: for every query whose trimmed length is 0 or greater than 100,
`search` fails with `InvalidQueryError` ("Invalid search query") without
contacting the upstream (the state, hence the ghost fetch counter, is
unchanged); for every query with trimmed length in [1, 100] it never fails
validation — the result is never the `Invalid search query` error, whatever
the upstream does. -/
theorem search_query_validation (s : ServiceState) (now : ℤ) (upL : FetchOutcome)
    (up : ℤ → FetchOutcome) (q : String) (page limit : ℚ) :
    ((jsTrim q).length = 0 ∨ 100 < (jsTrim q).length →
        search s now upL up q page limit = (.error "Invalid search query", s))
    ∧ (1 ≤ (jsTrim q).length → (jsTrim q).length ≤ 100 →
        (search s now upL up q page limit).1 ≠ .error "Invalid search query") := by
  constructor
  · intro h
    unfold search
    rw [if_pos (by omega)]
  · intro h1 h2
    unfold search
    rw [if_neg (by omega)]
    rcases hgl : getLatest s now upL with ⟨res, s1⟩
    rcases res with eMsg | latest
    · simp only [hgl]
      obtain ⟨m, hm⟩ := getLatest_error_msg s s1 now upL eMsg hgl
      subst hm
      intro hcontra
      injection hcontra with hc
      exact wrapped_latest_msg_ne_invalid_query m hc
    · simp only [hgl]
      intro hcontra
      exact Except.noConfusion hcontra

/-- Witness for C6: the empty query fails validation with the state
untouched; the query `python` (trimmed length 6) never produces the
validation error. -/
theorem search_query_validation_witness :
    ((jsTrim "").length = 0 ∨ 100 < (jsTrim "").length)
    ∧ search emptyState 0 upLatest2 upOkAll "" 1 10
        = (.error "Invalid search query", emptyState)
    ∧ 1 ≤ (jsTrim "python").length
    ∧ (jsTrim "python").length ≤ 100
    ∧ (search emptyState 0 upLatest2 upOkAll "python" 1 10).1
        ≠ .error "Invalid search query" := by
  refine ⟨Or.inl (by decide), ?_, by decide, by decide, ?_⟩
  · exact (search_query_validation emptyState 0 upLatest2 upOkAll "" 1 10).1
      (Or.inl (by decide))
  · exact (search_query_validation emptyState 0 upLatest2 upOkAll "python" 1 10).2
      (by decide) (by decide)

/-- Claim C4, counterexample: a non-not-found fetch error during the scan
does NOT propagate out of `search`.  Scanning ids `[2, 1]` (latest is 2),
the per-id fetch of id 1 — performed from exactly the state the scan has
reached by then — fails with the HTTP 500 error (not a not-found), yet
`search` still returns a successful result instead of aborting. -/
theorem search_scan_error_propagation_cex :
    (getById ⟨[("latest", ⟨processComic (sampleRaw 2), 0⟩),
               ("comic-2", ⟨processComic (sampleRaw 2), 0⟩)], true, 2⟩
        0 upHttp500At1 1).1
      = .error "Failed to fetch comic by ID: HTTP 500: Server Error"
    ∧ (search emptyState 0 upLatest2 upHttp500At1 "a" 1 10).1
      = .ok ⟨"a", [processComic (sampleRaw 2)], 1, ⟨1, 10, 1, 0⟩⟩ :=
  ⟨by decide, by decide⟩

/-- Claim C4 (amended): during the scan of `search`, a failing `getById` —
a not-found like any other fetch error — is swallowed and scanning continues
with the remaining ids (the catch block has no re-throw path); consequently,
whenever validation passes and `getLatest` succeeds, `search` returns a
successful result: per-id fetch errors never abort the operation. -/
theorem search_scan_error_swallowed :
    (∀ (s s1 : ServiceState) (now : ℤ) (up : ℤ → FetchOutcome) (q : String)
        (i : ℤ) (rest : List ℤ) (e : String),
        getById s now up (i : ℚ) = (.error e, s1) →
        searchScan now up q s (i :: rest) = searchScan now up q s1 rest)
    ∧ (∀ (s : ServiceState) (now : ℤ) (upL : FetchOutcome) (up : ℤ → FetchOutcome)
        (q : String) (page limit : ℚ) (latest : Comic) (s1 : ServiceState),
        1 ≤ (jsTrim q).length → (jsTrim q).length ≤ 100 →
        getLatest s now upL = (.ok latest, s1) →
        ∃ (r : SearchResult) (s2 : ServiceState),
          search s now upL up q page limit = (.ok r, s2)) := by
  constructor
  · intro s s1 now up q i rest e h
    simp only [searchScan, h]
  · intro s now upL up q page limit latest s1 h1 h2 hgl
    unfold search
    rw [if_neg (by omega)]
    simp only [hgl]
    exact ⟨_, _, rfl⟩

/-- Witness for the amended C4: the HTTP-500 failure of id 1 is skipped and
the scan proceeds with the rest; the whole `search` against that faulty
upstream still succeeds. -/
theorem search_scan_error_swallowed_witness :
    searchScan 0 upHttp500At1 "a" emptyState [1]
        = searchScan 0 upHttp500At1 "a" ⟨[], false, 1⟩ []
    ∧ ∃ (r : SearchResult) (s2 : ServiceState),
        search emptyState 0 upLatest2 upHttp500At1 "a" 1 10 = (.ok r, s2) := by
  constructor
  · exact search_scan_error_swallowed.1 emptyState ⟨[], false, 1⟩ 0 upHttp500At1 "a" 1 []
      "Failed to fetch comic by ID: HTTP 500: Server Error" (by decide)
  · exact search_scan_error_swallowed.2 emptyState 0 upLatest2 upHttp500At1 "a" 1 10
      (processComic (sampleRaw 2))
      ⟨[("latest", ⟨processComic (sampleRaw 2), 0⟩)], true, 1⟩
      (by decide) (by decide) (by decide)

/-- Claim C10: for every valid query, when the requested page puts the
offset `(page-1)*limit` at or beyond the number of matches, `search` still
succeeds and returns an empty `results` list, while `total` is the full
match count, `pages = max 1 ⌈total/limit⌉`, and the echoed
`pagination.page` is the (sanitized) requested page even when it exceeds
`pages`. -/
theorem search_overshoot_empty (s : ServiceState) (now : ℤ) (upL : FetchOutcome)
    (up : ℤ → FetchOutcome) (q : String) (page limit : ℚ) (latest : Comic)
    (s1 : ServiceState)
    (hq1 : 1 ≤ (jsTrim q).length) (hq2 : (jsTrim q).length ≤ 100)
    (hgl : getLatest s now upL = (.ok latest, s1))
    (hoff : (searchScan now up (jsToLower (jsTrim q)) s1 (scanIds latest.id)).1.length
        ≤ ((safePage page - 1) * safeLimit limit).toNat) :
    search s now upL up q page limit
      = (.ok { query := jsTrim q,
               results := [],
               total := (searchScan now up (jsToLower (jsTrim q)) s1
                           (scanIds latest.id)).1.length,
               pagination :=
                 ⟨safePage page, safeLimit limit,
                  max 1 (ceilDivInt
                    ((searchScan now up (jsToLower (jsTrim q)) s1
                        (scanIds latest.id)).1.length) (safeLimit limit)),
                  (safePage page - 1) * safeLimit limit⟩ },
         (searchScan now up (jsToLower (jsTrim q)) s1 (scanIds latest.id)).2) := by
  unfold search
  rw [if_neg (by omega)]
  simp only [hgl]
  rw [List.drop_eq_nil_of_le hoff, List.take_nil]

/-- Witness for C10: query `a`, page 5, limit 10 against an all-404 by-id
upstream — zero matches, offset 40 ≥ 0 — search succeeds with empty
results, total 0, pages 1 and the echoed page 5. -/
theorem search_overshoot_empty_witness :
    search emptyState 0 upLatest2 upNotFoundAll "a" 5 10
      = (.ok { query := "a", results := [], total := 0,
               pagination := ⟨5, 10, 1, 40⟩ },
         ⟨[("latest", ⟨processComic (sampleRaw 2), 0⟩)], true, 3⟩) := by
  have h := search_overshoot_empty emptyState 0 upLatest2 upNotFoundAll "a" 5 10
      (processComic (sampleRaw 2))
      ⟨[("latest", ⟨processComic (sampleRaw 2), 0⟩)], true, 1⟩
      (by decide) (by decide) (by decide) (by decide)
  rw [h]
  decide

/-- A successful `getByIdCold` came from a 2xx response whose body it
processed. -/
theorem getByIdCold_ok_resp (s s1 : ServiceState) (now : ℤ) (up : ℤ → FetchOutcome)
    (i : ℤ) (c : Comic) (h : getByIdCold s now up i = (.ok c, s1)) :
    ∃ r : JsResponse, up i = .resp r ∧ respOk r = true ∧ c = processComic r.body := by
  unfold getByIdCold at h
  rcases hup : up i with r | m
  · simp only [hup] at h
    split at h
    · injection h with ha hb
      exact Except.noConfusion ha
    · split at h
      · injection h with ha hb
        injection ha with ha
        rename_i hok
        exact ⟨r, rfl, hok, ha.symm⟩
      · injection h with ha hb
        exact Except.noConfusion ha
  · simp only [hup] at h
    injection h with ha hb
    exact Except.noConfusion ha

/-- The two ways `getById` can succeed on an integer id: a fresh cache hit
(state unchanged) or a cold fetch of a 2xx response (entry stored). -/
theorem getById_int_ok_cases (s s1 : ServiceState) (now : ℤ) (up : ℤ → FetchOutcome)
    (i : ℤ) (c : Comic) (h : getById s now up (i : ℚ) = (.ok c, s1)) :
    (∃ e : CacheEntry, cacheGet s.cache (comicKey i) = some e ∧ e.data = c ∧ s1 = s)
    ∨ (∃ r : JsResponse, up i = .resp r ∧ respOk r = true ∧ c = processComic r.body
        ∧ s1 = { s with fetchCount := s.fetchCount + 1,
                        cache := cacheSet s.cache (comicKey i) ⟨c, now⟩ }) := by
  have hnum : ((i : ℚ)).num = i := Rat.num_intCast i
  unfold getById at h
  split at h
  · injection h with ha hb
    exact Except.noConfusion ha
  · rw [hnum] at h
    rcases hcg : cacheGet s.cache (comicKey i) with _ | cached
    · simp only [hcg] at h
      obtain ⟨r, hr, hok, hc⟩ := getByIdCold_ok_resp s s1 now up i c h
      exact Or.inr ⟨r, hr, hok, hc, getByIdCold_ok s s1 now up i c h⟩
    · simp only [hcg] at h
      split at h
      · injection h with ha hb
        injection ha with ha
        exact Or.inl ⟨cached, rfl, ha, hb.symm⟩
      · obtain ⟨r, hr, hok, hc⟩ := getByIdCold_ok_resp s s1 now up i c h
        exact Or.inr ⟨r, hr, hok, hc, getByIdCold_ok s s1 now up i c h⟩

/-- Head of a cache-consistency assumption. -/
theorem cacheConsistentOn_head (c : List (String × CacheEntry)) (i : ℤ)
    (ids : List ℤ) (h : cacheConsistentOn c (i :: ids) = true) (e : CacheEntry)
    (he : cacheGet c (comicKey i) = some e) : e.data.id = i := by
  unfold cacheConsistentOn at h
  rw [List.all_cons, Bool.and_eq_true] at h
  have h1 := h.1
  rw [he] at h1
  exact beq_iff_eq.mp h1

/-- Tail of a cache-consistency assumption. -/
theorem cacheConsistentOn_tail (c : List (String × CacheEntry)) (i : ℤ)
    (ids : List ℤ) (h : cacheConsistentOn c (i :: ids) = true) :
    cacheConsistentOn c ids = true := by
  unfold cacheConsistentOn at h ⊢
  rw [List.all_cons, Bool.and_eq_true] at h
  exact h.2

/-- Head of an upstream-consistency assumption. -/
theorem upConsistentOn_head (up : ℤ → FetchOutcome) (i : ℤ) (ids : List ℤ)
    (h : upConsistentOn up (i :: ids) = true) (r : JsResponse)
    (hr : up i = .resp r) (hok : respOk r = true) : r.body.num = i := by
  unfold upConsistentOn at h
  rw [List.all_cons, Bool.and_eq_true] at h
  have h1 := h.1
  rw [hr] at h1
  simp only [hok, Bool.not_true, Bool.false_or] at h1
  exact beq_iff_eq.mp h1

/-- Tail of an upstream-consistency assumption. -/
theorem upConsistentOn_tail (up : ℤ → FetchOutcome) (i : ℤ) (ids : List ℤ)
    (h : upConsistentOn up (i :: ids) = true) : upConsistentOn up ids = true := by
  unfold upConsistentOn at h
  rw [List.all_cons, Bool.and_eq_true] at h
  exact h.2

/-- Storing under a key foreign to `ids` preserves cache consistency. -/
theorem cacheConsistentOn_set (c : List (String × CacheEntry)) (ids : List ℤ)
    (k : String) (v : CacheEntry) (hk : ∀ j ∈ ids, comicKey j ≠ k)
    (h : cacheConsistentOn c ids = true) :
    cacheConsistentOn (cacheSet c k v) ids = true := by
  unfold cacheConsistentOn at h ⊢
  rw [List.all_eq_true] at h ⊢
  intro j hj
  rw [cacheGet_cacheSet_ne c k (comicKey j) v (hk j hj)]
  exact h j hj

/-- The scan window is strictly descending. -/
theorem scanIds_pairwise (m : ℤ) :
    (scanIds m).Pairwise (fun a b => b < a) := by
  unfold scanIds
  rw [List.pairwise_map]
  apply (List.pairwise_lt_range _).imp
  intro a b hab
  omega

/-- The ids of the comics collected by the scan form a sublist of the
scanned ids, provided cache and upstream are id-consistent on the window and
the window's cache keys are pairwise distinct. -/
theorem searchScan_ids_sublist (now : ℤ) (up : ℤ → FetchOutcome) (q : String) :
    ∀ (ids : List ℤ) (s : ServiceState),
      cacheConsistentOn s.cache ids = true →
      upConsistentOn up ids = true →
      (ids.map comicKey).Nodup →
      ((searchScan now up q s ids).1.map Comic.id).Sublist ids := by
  intro ids
  induction ids with
  | nil =>
      intro s _ _ _
      simp [searchScan]
  | cons i rest ih =>
      intro s hcc huc hnd
      rw [List.map_cons, List.nodup_cons] at hnd
      obtain ⟨hnotin, hndrest⟩ := hnd
      rcases hgb : getById s now up ((i : ℤ) : ℚ) with ⟨res, s'⟩
      rcases res with e | c
      · have hstep : searchScan now up q s (i :: rest) = searchScan now up q s' rest := by
          simp only [searchScan, hgb]
        rw [hstep]
        have hcache : s'.cache = s.cache := getById_error_cache s s' now up (i : ℚ) e hgb
        have hcc' : cacheConsistentOn s'.cache rest = true := by
          rw [hcache]
          exact cacheConsistentOn_tail _ _ _ hcc
        exact (ih s' hcc' (upConsistentOn_tail _ _ _ huc) hndrest).cons i
      · have hcases := getById_int_ok_cases s s' now up i c hgb
        have hid : c.id = i := by
          rcases hcases with ⟨e, he, hd, _⟩ | ⟨r, hr, hok, hc, _⟩
          · rw [← hd]
            exact cacheConsistentOn_head _ _ _ hcc e he
          · rw [hc]
            exact upConsistentOn_head _ _ _ huc r hr hok
        have hcc' : cacheConsistentOn s'.cache rest = true := by
          rcases hcases with ⟨e, he, hd, hs⟩ | ⟨r, hr, hok, hc, hs⟩
          · rw [hs]
            exact cacheConsistentOn_tail _ _ _ hcc
          · rw [hs]
            apply cacheConsistentOn_set
            · intro j hj hkeq
              exact hnotin (hkeq ▸ List.mem_map_of_mem comicKey hj)
            · exact cacheConsistentOn_tail _ _ _ hcc
        have htail := ih s' hcc' (upConsistentOn_tail _ _ _ huc) hndrest
        have hstep : (searchScan now up q s (i :: rest)).1
            = (if jsIncludes (jsToLower (c.title ++ " " ++ c.transcript)) q
               then c :: (searchScan now up q s' rest).1
               else (searchScan now up q s' rest).1) := by
          simp only [searchScan, hgb]
        rw [hstep]
        by_cases hm : jsIncludes (jsToLower (c.title ++ " " ++ c.transcript)) q = true
        · rw [if_pos hm, List.map_cons, hid]
          exact htail.cons₂ i
        · rw [if_neg hm]
          exact htail.cons i

/-- Claim C7: for every successful `search(query, page, limit)`: `page` is
sanitized to ≥ 1 with default 1 and `limit` to [1, 50] with default 10 (via
`safePage`/`safeLimit`), `offset = (page-1)*limit`,
`pages = max 1 ⌈total/limit⌉`, `results` is the full match list sliced to
`[offset, offset+limit)`, `total` is the full match count, and — when cache
and upstream are id-consistent over the scan window (distinct keys) —
`results` is ordered most-recent-id-first (strictly descending ids,
consistent with scan order). -/
theorem search_success_pagination (s : ServiceState) (now : ℤ) (upL : FetchOutcome)
    (up : ℤ → FetchOutcome) (q : String) (page limit : ℚ) (r : SearchResult)
    (s2 : ServiceState) (latest : Comic) (s1 : ServiceState)
    (hgl : getLatest s now upL = (.ok latest, s1))
    (hs : search s now upL up q page limit = (.ok r, s2))
    (hcc : cacheConsistentOn s1.cache (scanIds latest.id) = true)
    (huc : upConsistentOn up (scanIds latest.id) = true)
    (hnd : ((scanIds latest.id).map comicKey).Nodup) :
    r.query = jsTrim q
    ∧ r.total = (searchScan now up (jsToLower (jsTrim q)) s1 (scanIds latest.id)).1.length
    ∧ r.pagination.page = safePage page
    ∧ r.pagination.limit = safeLimit limit
    ∧ r.pagination.offset = (safePage page - 1) * safeLimit limit
    ∧ r.pagination.pages = max 1 (ceilDivInt (r.total : ℤ) (safeLimit limit))
    ∧ r.results = ((searchScan now up (jsToLower (jsTrim q)) s1
          (scanIds latest.id)).1.drop
          ((safePage page - 1) * safeLimit limit).toNat).take (safeLimit limit).toNat
    ∧ r.results.Pairwise (fun a b => b.id < a.id) := by
  unfold search at hs
  by_cases hq : (jsTrim q).length < 1 ∨ 100 < (jsTrim q).length
  · rw [if_pos hq] at hs
    injection hs with ha hb
    exact Except.noConfusion ha
  · rw [if_neg hq] at hs
    simp only [hgl] at hs
    injection hs with ha hb
    injection ha with ha
    subst ha
    refine ⟨rfl, rfl, rfl, rfl, rfl, rfl, rfl, ?_⟩
    have hsub := searchScan_ids_sublist now up (jsToLower (jsTrim q))
      (scanIds latest.id) s1 hcc huc hnd
    have hpw : ((searchScan now up (jsToLower (jsTrim q)) s1
        (scanIds latest.id)).1.map Comic.id).Pairwise (fun a b => b < a) :=
      List.Pairwise.sublist hsub (scanIds_pairwise latest.id)
    have hsubres :
        ((((searchScan now up (jsToLower (jsTrim q)) s1 (scanIds latest.id)).1.drop
            ((safePage page - 1) * safeLimit limit).toNat).take
            (safeLimit limit).toNat).map Comic.id).Sublist
          ((searchScan now up (jsToLower (jsTrim q)) s1
            (scanIds latest.id)).1.map Comic.id) :=
      ((List.take_sublist _ _).trans (List.drop_sublist _ _)).map Comic.id
    have hpw2 := List.Pairwise.sublist hsubres hpw
    exact List.pairwise_map.mp hpw2

/-- Witness for C7: query `a` at page 1, limit 10 against a fully consistent
upstream; both scanned comics (ids 2 and 1) match and come back in
descending id order with the expected pagination block. -/
theorem search_success_pagination_witness :
    ({ query := "a", results := [processComic (sampleRaw 2), processComic (sampleRaw 1)],
       total := 2, pagination := ⟨1, 10, 1, 0⟩ } : SearchResult).query = jsTrim "a"
    ∧ ({ query := "a", results := [processComic (sampleRaw 2), processComic (sampleRaw 1)],
         total := 2, pagination := ⟨1, 10, 1, 0⟩ } : SearchResult).total
        = (searchScan 0 upOkAll (jsToLower (jsTrim "a"))
            ⟨[("latest", ⟨processComic (sampleRaw 2), 0⟩)], true, 1⟩
            (scanIds (processComic (sampleRaw 2)).id)).1.length
    ∧ (1 : ℤ) = safePage 1
    ∧ (10 : ℤ) = safeLimit 10
    ∧ (0 : ℤ) = (safePage 1 - 1) * safeLimit 10
    ∧ (1 : ℤ) = max 1 (ceilDivInt ((2 : ℕ) : ℤ) (safeLimit 10))
    ∧ [processComic (sampleRaw 2), processComic (sampleRaw 1)]
        = (((searchScan 0 upOkAll (jsToLower (jsTrim "a"))
              ⟨[("latest", ⟨processComic (sampleRaw 2), 0⟩)], true, 1⟩
              (scanIds (processComic (sampleRaw 2)).id)).1.drop
              ((safePage 1 - 1) * safeLimit 10).toNat).take (safeLimit 10).toNat)
    ∧ List.Pairwise (fun a b : Comic => b.id < a.id)
        [processComic (sampleRaw 2), processComic (sampleRaw 1)] := by
  have h := search_success_pagination emptyState 0 upLatest2 upOkAll "a" 1 10
      { query := "a", results := [processComic (sampleRaw 2), processComic (sampleRaw 1)],
        total := 2, pagination := ⟨1, 10, 1, 0⟩ }
      ⟨[("latest", ⟨processComic (sampleRaw 2), 0⟩),
        ("comic-2", ⟨processComic (sampleRaw 2), 0⟩),
        ("comic-1", ⟨processComic (sampleRaw 1), 0⟩)], true, 3⟩
      (processComic (sampleRaw 2))
      ⟨[("latest", ⟨processComic (sampleRaw 2), 0⟩)], true, 1⟩
      (by decide) (by decide) (by decide) (by decide) (by decide)
  exact h

end Xkcd
